import Mathlib

/-!
Verification development for the Club21 order-feed pipeline
(`shopify/transform.py`, class `ShopifyTransform`).

The embedding below translates the transform pipeline into Lean:

* Python floats carrying monetary amounts are modelled as rationals (`ℚ`);
  `round(x, 2)` (pandas `.round(2)`, numpy round-half-to-even) is modelled by
  `round2`, a half-to-even rounding at two decimals.
* A pandas `DataFrame` is modelled as a `List` of records (`FlatRow` for the
  output of `flatten`, `Row` for the table restricted to `REQUIRED_COLS`,
  `EmitRow` for the final emitted table after the presentation pass and the
  drop of the `duty_tax` column).  Column renaming only changes CSV headers
  and is not modelled.
* `groupby("order_name")` is modelled by `sortStrings` over the unique keys
  (pandas sorts group keys ascending; each group keeps the original row
  order) together with `groupRows`.
* Fallible code (Python `KeyError` on a missing dict key) is modelled in the
  `Except String` monad: `pyGet` is `d[key]`, returning the value or a
  `KeyError`.  `.get(key, default)` is modelled by `Option.getD`.
* The pandas `to_datetime(...) + 8h` / `strftime` reformatting of the two
  timestamp columns is kept abstract as a parameter `fmtTs : String → String`
  of the enrichment step: no claim constrains the concrete format.
-/

/-! ### Small Python-faithful helpers -/

/-- One step of lexicographic comparison of character lists; `charListLeB`
is Python's `<=` on strings (restricted to the code-point order). -/
def charListLeB : List Char → List Char → Bool
  | [], _ => true
  | _ :: _, [] => false
  | a :: as, b :: bs => if a = b then charListLeB as bs else decide (a.val < b.val)

/-- Python string `<=`, used to model the ascending sort of pandas group keys. -/
def strLeB (a b : String) : Bool := charListLeB a.data b.data

/-- Insert a string into a sorted list of strings (insertion sort step). -/
def insertSorted (s : String) : List String → List String
  | [] => [s]
  | t :: ts => if strLeB s t then s :: t :: ts else t :: insertSorted s ts

/-- Ascending sort of a list of strings; models the sorted iteration order of
`DataFrame.groupby` over string keys. -/
def sortStrings : List String → List String
  | [] => []
  | s :: ss => insertSorted s (sortStrings ss)

/-- First-occurrence deduplication, with an accumulator of already seen
values; helper for `pdUnique`. -/
def pdUniqueAux (seen : List String) : List String → List String
  | [] => []
  | x :: xs => if seen.contains x then pdUniqueAux seen xs else x :: pdUniqueAux (x :: seen) xs

/-- pandas `Series.unique()`: the distinct values in order of first
occurrence. -/
def pdUnique (l : List String) : List String := pdUniqueAux [] l

/-- Python `s.split(c)` for a one-character separator, on character lists. -/
def splitOnChar (c : Char) : List Char → List (List Char)
  | [] => [[]]
  | x :: xs =>
    if x = c then [] :: splitOnChar c xs
    else
      match splitOnChar c xs with
      | [] => [[x]]
      | h :: t => (x :: h) :: t

/-- Python `x.split("-")[-1]`: the substring after the last `"-"`
(`split` always returns a non-empty list, so `[-1]` never fails). -/
def pySplitLastDash (s : String) : String :=
  String.mk ((splitOnChar '-' s.data).getLastD s.data)

/-- `warehouse_code` (transform.py:48): `re.search(r"^\d+")` on the assigned
location; the regex matches exactly when the string starts with a digit, and
the match is the maximal digit prefix; otherwise the raw string passes
through. -/
def warehouse_code (assigned_location : String) : String :=
  let digits := assigned_location.data.takeWhile (fun ch => ch.isDigit)
  if digits.isEmpty then assigned_location else String.mk digits

/-- Python `str.lower`, character by character. -/
def pyLower (s : String) : String := String.mk (s.data.map Char.toLower)

/-- Python `x.replace("\n", "")`: removes every newline character. -/
def stripNewlines (s : String) : String := String.mk (s.data.filter (fun ch => ch != '\n'))

/-- `round(x, 2)` on the monetary values (pandas `.round(2)`): half-to-even
rounding at two decimal places, on the rational model of the float. -/
def round2 (x : ℚ) : ℚ :=
  let y : ℚ := 100 * x
  let f : ℤ := ⌊y⌋
  let r : ℚ := y - (f : ℚ)
  let n : ℤ := if r < 1/2 then f else if 1/2 < r then f + 1 else if f % 2 = 0 then f else f + 1
  (n : ℚ) / 100

/-- Python `max` over a non-empty list, given as head and tail. -/
def pyMax (x : ℚ) (xs : List ℚ) : ℚ := xs.foldl max x

/-! ### The table restricted to `REQUIRED_COLS` (transform.py:13-44,205)

One record per row, one field per selected column, in the order of
`REQUIRED_COLS` (plus nothing else: the selection at transform.py:205 drops
all other columns).  `shipping_country` is `Option` because the synthetic
rows built by `_duty_tax` do not carry that column, so `pd.concat` fills it
with `NaN` (`none`).  `discount_code` is `Option` because the source order
field `discountCode` may be JSON `null`. -/

structure Row where
  order_name : String
  order_closed : String
  country_code : String
  shipping_country : Option String
  assigned_location : String
  fulfillment_status : String
  sku : String
  product_name : String
  order_created_at : String
  quantity : Int
  quantity_cancel : Int
  sales_kind : String
  currency : String
  original_total : ℚ
  adjusted_discounted_total : ℚ
  div : String
  vendor : String
  total_shipping : ℚ
  total_duty : ℚ
  duty_tax : ℚ
  shipping_code : String
  shipping_name : String
  tax_title : String
  total_tax : ℚ
  shipping_address1 : String
  order_note : String
  discount_amount : ℚ
  discount_type : String
  discount_code : Option String
  requires_shipping : String
  deriving DecidableEq

/-! ### `_duty_tax` — the order-level aggregator (transform.py:230-320) -/

/-- The rows of one order group (pandas `groupby` group for one key: all rows
whose `order_name` equals the key, in original order). -/
def groupRows (rows : List Row) (k : String) : List Row :=
  rows.filter (fun r => r.order_name == k)

/-- The group keys iterated by `groupby("order_name")`: distinct order
names, sorted ascending. -/
def sortedKeys (rows : List Row) : List String :=
  sortStrings (pdUnique (rows.map Row.order_name))

/-- The membership test at transform.py:236-237: the group participates in
synthesis when its unique assigned locations contain `"888"` or `"999"`. -/
def participates (g : List Row) : Bool :=
  let unique_warehouse := pdUnique (g.map Row.assigned_location)
  unique_warehouse.contains "888" || unique_warehouse.contains "999"

/-- `order_dict` (transform.py:238): the group's rows at locations
`"051"`, `"888"`, `"999"`. -/
def orderDict (g : List Row) : List Row :=
  g.filter (fun r =>
    r.assigned_location == "051" || r.assigned_location == "888" || r.assigned_location == "999")

/-- The synthetic "Duties & Taxes" row (transform.py:250-280), built from the
group key, the first row of `order_dict`, the summed duty and the summed
duty tax.  The dict literal has no `shipping_country` key, hence `none`. -/
def mkDutyRow (k : String) (first : Row) (total_duty duty_tax : ℚ) : Row where
  order_name := k
  order_closed := first.order_closed
  country_code := "SG"
  shipping_country := none
  assigned_location := "051"
  fulfillment_status := first.fulfillment_status
  sku := "90000000-DUTIES"
  product_name := "Duties & Taxes"
  order_created_at := first.order_created_at
  quantity := 1
  quantity_cancel := 0
  sales_kind := "order"
  currency := first.currency
  original_total := total_duty
  adjusted_discounted_total := total_duty
  div := "S21"
  vendor := "[Shipping]"
  total_shipping := 0
  total_duty := 0
  duty_tax := 0
  shipping_code := first.shipping_code
  shipping_name := first.shipping_name
  tax_title := "TAX"
  total_tax := duty_tax
  shipping_address1 := first.shipping_address1
  order_note := first.order_note
  discount_amount := 0
  discount_type := "percentage"
  discount_code := some ""
  requires_shipping := "shipping"

/-- The synthetic "Delivery" row (transform.py:284-314). -/
def mkDeliveryRow (k : String) (first : Row) (total_shipping : ℚ) : Row where
  order_name := k
  order_closed := first.order_closed
  country_code := "SG"
  shipping_country := none
  assigned_location := "051"
  fulfillment_status := first.fulfillment_status
  sku := "9000000-DELIVER"
  product_name := "Delivery"
  order_created_at := first.order_created_at
  quantity := 1
  quantity_cancel := 0
  sales_kind := "order"
  currency := first.currency
  original_total := total_shipping
  adjusted_discounted_total := total_shipping
  div := "S21"
  vendor := "[Shipping]"
  total_shipping := 0
  total_duty := 0
  duty_tax := 0
  shipping_code := first.shipping_code
  shipping_name := first.shipping_name
  tax_title := "TAX"
  total_tax := 0
  shipping_address1 := first.shipping_address1
  order_note := ""
  discount_amount := 0
  discount_type := "percentage"
  discount_code := some ""
  requires_shipping := "shipping"

/-- The body of the `for order_name, order_group in orders` loop
(transform.py:234-315): the synthetic rows appended for one group.  When the
group does not participate, or `order_dict` is empty (the `continue` at
transform.py:240-242), nothing is appended; otherwise the total duty is the
sum over `order_dict`, the total shipping the Python `max` over the same
non-empty list, and a "Duties & Taxes" and/or "Delivery" row is appended
when the respective total is strictly positive. -/
def synthForGroup (k : String) (g : List Row) : List Row :=
  if participates g then
    match orderDict g with
    | [] => []
    | first :: rest =>
      let total_duty : ℚ := ((first :: rest).map Row.total_duty).sum
      let total_shipping : ℚ := pyMax first.total_shipping (rest.map Row.total_shipping)
      (if 0 < total_duty then
        [mkDutyRow k first total_duty (((first :: rest).map Row.duty_tax).sum)]
       else []) ++
      (if 0 < total_shipping then [mkDeliveryRow k first total_shipping] else [])
  else []

/-- `transformed_rows` accumulated over all groups, in the sorted group-key
order of `groupby`. -/
def syntheticRows (rows : List Row) : List Row :=
  (sortedKeys rows).flatMap (fun k => synthForGroup k (groupRows rows k))

/-- Row survives the final virtual-location drop (transform.py:319):
`~data["assigned_location"].isin(["888", "999"])`. -/
def locKeep (r : Row) : Bool :=
  !(r.assigned_location == "888" || r.assigned_location == "999")

/-- `_duty_tax` (transform.py:230-320): concatenate the input table with the
synthetic rows, then drop every row whose location is `"888"` or `"999"`. -/
def duty_tax (rows : List Row) : List Row :=
  (rows ++ syntheticRows rows).filter locKeep

/-! ### `_giftbox_transform` — the gift-wrap rewriter (transform.py:218-228) -/

/-- The in-place rewrite of a surviving `"PRE ORDER"` row
(transform.py:223-227). -/
def giftboxRewrite (r : Row) : Row :=
  { r with
    assigned_location := "051"
    sku := "900000000-PROPS"
    product_name := "Gift Wrap"
    vendor := "Club21"
    discount_code := some "" }

/-- `_giftbox_transform` (transform.py:218-228): drop `"PRE ORDER"` rows with
non-positive `adjusted_discounted_total`, then rewrite the remaining
`"PRE ORDER"` rows in place. -/
def giftbox_transform (rows : List Row) : List Row :=
  (rows.filter (fun r =>
      !(r.assigned_location == "PRE ORDER" && decide (r.adjusted_discounted_total ≤ 0)))).map
    (fun r => if r.assigned_location == "PRE ORDER" then giftboxRewrite r else r)

/-! ### The presentation pass and the emitted table (transform.py:209-216) -/

/-- A cell that holds either a number or a literal string (a pandas `object`
column after the presentation lambdas mix floats and strings). -/
inductive Cell where
  | num (q : ℚ)
  | str (s : String)
  deriving DecidableEq

/-- transform.py:209: `x * (-1) if x > 0 else "-0"`. -/
def presentDiscount (x : ℚ) : Cell :=
  if 0 < x then Cell.num (x * (-1)) else Cell.str "-0"

/-- transform.py:210: `x if x > 0 else '""'` (the literal two-character
string made of two double quotes). -/
def presentDuty (x : ℚ) : Cell :=
  if 0 < x then Cell.num x else Cell.str "\"\""

/-- Stand-in for Python `str` on a float; the emitted text of a positive
shipping amount.  Only which branch of transform.py:211 is taken is
claim-relevant, not the concrete digits. -/
def floatStr (x : ℚ) : String := toString x

/-- transform.py:211: `str(x) if x > 0 else "0"`. -/
def presentShipping (x : ℚ) : String :=
  if 0 < x then floatStr x else "0"

/-- The final emitted record: the `REQUIRED_COLS` columns after the
presentation lambdas (transform.py:209-211), the rename (a pure header
change, transform.py:213) and the drop of the `duty_tax` column
(transform.py:214). -/
structure EmitRow where
  order_name : String
  order_closed : String
  country_code : String
  shipping_country : Option String
  assigned_location : String
  fulfillment_status : String
  sku : String
  product_name : String
  order_created_at : String
  quantity : Int
  quantity_cancel : Int
  sales_kind : String
  currency : String
  original_total : ℚ
  adjusted_discounted_total : ℚ
  div : String
  vendor : String
  total_shipping : String
  total_duty : Cell
  shipping_code : String
  shipping_name : String
  tax_title : String
  total_tax : ℚ
  shipping_address1 : String
  order_note : String
  discount_amount : Cell
  discount_type : String
  discount_code : Option String
  requires_shipping : String
  deriving DecidableEq

/-! ### `flatten` — the flattener (transform.py:67-174)

The per-order JSON snapshot (`{"data": {"order": {...}}}`) is modelled by
explicit records.  A field read with `d["key"]` in Python is an `Option`
field here (`none` = key absent, so the read raises `KeyError`); a field
read with `d.get(...)` is an `Option` field read without failure.  Chains of
indexings that the code always performs together
(e.g. `["assignedLocation"]["name"]`,
`["discountedPriceSet"]["shopMoney"]["amount"]`) are collapsed into one
field, and the trailing `float(...)` on amount strings is collapsed into
storing the amount as `ℚ`.  JSON `null` inside a present leaf value is not
distinguished from a concrete falsy value (`""`). -/

structure PShippingAddress where
  name : Option String
  address1 : Option String
  address2 : Option String
  city : Option String
  country : Option String
  deriving DecidableEq

structure PShippingLine where
  title : Option String
  code : Option String
  discountedPriceAmount : Option ℚ
  originalPriceAmount : Option ℚ
  discountedPriceCurrency : Option String
  taxLineAmounts : Option (List ℚ)
  deriving DecidableEq

structure PTaxLine where
  amount : ℚ
  rate : ℚ
  title : String
  deriving DecidableEq

structure PDuty where
  priceAmount : ℚ
  taxLineAmounts : List ℚ
  deriving DecidableEq

structure PLineItem where
  id : Option String
  sku : Option String
  name : Option String
  title : Option String
  quantity : Option Int
  vendor : Option String
  discountedTotalAmount : Option ℚ
  originalTotalAmount : Option ℚ
  originalTotalCurrency : Option String
  discountAllocationAmounts : Option (List ℚ)
  taxLines : Option (List PTaxLine)
  duties : Option (List PDuty)
  deriving DecidableEq

structure PLineItemNode where
  lineItem : Option PLineItem
  deriving DecidableEq

structure PFulfillmentOrder where
  id : Option String
  assignedLocationName : Option String
  lineItemNodes : Option (List PLineItemNode)
  deriving DecidableEq

structure POrder where
  id : Option String
  name : Option String
  note : Option String
  closed : Option Bool
  createdAt : Option String
  updatedAt : Option String
  discountCode : Option String
  requiresShipping : Option Bool
  displayFulfillmentStatus : Option String
  displayAddressCountryCodeV2 : Option String
  shippingAddress : Option PShippingAddress
  shippingLine : Option PShippingLine
  fulfillmentOrderNodes : Option (List PFulfillmentOrder)
  deriving DecidableEq

/-- One entry of the directory listing: the file may have vanished between
`load_dir` and the `os.path.exists` check (transform.py:75-77), else it
parses to an envelope whose `["data"]["order"]` chain yields the order
object or raises. -/
inductive FileEntry where
  | missing
  | file (dataOrder : Option POrder)
  deriving DecidableEq

/-- Python `d[key]`: the value, or a `KeyError` for an absent key. -/
def pyGet {α : Type} (o : Option α) (key : String) : Except String α :=
  match o with
  | some v => Except.ok v
  | none => Except.error ("KeyError: " ++ key)

/-- A Python `for` loop that builds a list and may raise: the first raised
exception aborts the whole traversal. -/
def exList {α β : Type} (f : α → Except String β) : List α → Except String (List β)
  | [] => Except.ok []
  | a :: as => do
    let b ← f a
    let bs ← exList f as
    pure (b :: bs)

/-- One row of `flatten`'s output: the merge of `order_info`,
`fulfillment_info`, `lineitem_info`, `discount_info`, `tax_info` and
`duty_info` (transform.py:165-172).  The field `dicounted_total` keeps the
source's spelling. -/
structure FlatRow where
  order_id : String
  order_name : String
  order_note : String
  order_closed : Bool
  order_created_at : String
  order_updated_at : String
  discount_code : Option String
  requires_shipping : Bool
  fulfillment_status : String
  shipping_country : String
  shipping_name : String
  shipping_address1 : String
  shipping_address2 : Option String
  shipping_city : String
  shipping_country_full : String
  shipping_title : String
  shipping_code : String
  shipping_discounted_price : ℚ
  shipping_original_price : ℚ
  shipping_currency : String
  shipping_tax_amount : ℚ
  fulfillment_order_id : String
  assigned_location : String
  lineitem_id : String
  sku : String
  product_name : String
  product_title : String
  quantity : Int
  vendor : String
  dicounted_total : ℚ
  original_total : ℚ
  currency : String
  discount_amount : ℚ
  tax_amount : ℚ
  tax_rate : ℚ
  tax_title : String
  duty_amount : ℚ
  duty_tax : ℚ
  deriving DecidableEq

/-- The order-level extraction (transform.py:81-111), up to the shipping tax
accumulation, packaged so the per-line-item part can reuse it.  Mirrors the
code: every `order[...]` access may raise, `order.get("note", "")` defaults
to `""`, `order.get("discountCode")` and `.get("address2")` stay optional,
and the shipping tax starts at `0` and becomes the sum of the shipping tax
lines when that list is truthy. -/
structure OrderInfo where
  order_id : String
  order_name : String
  order_note : String
  order_closed : Bool
  order_created_at : String
  order_updated_at : String
  discount_code : Option String
  requires_shipping : Bool
  fulfillment_status : String
  shipping_country : String
  shipping_name : String
  shipping_address1 : String
  shipping_address2 : Option String
  shipping_city : String
  shipping_country_full : String
  shipping_title : String
  shipping_code : String
  shipping_discounted_price : ℚ
  shipping_original_price : ℚ
  shipping_currency : String
  shipping_tax_amount : ℚ
  deriving DecidableEq

def extractOrderInfo (o : POrder) : Except String OrderInfo := do
  let oid ← pyGet o.id "id"
  let oname ← pyGet o.name "name"
  let oclosed ← pyGet o.closed "closed"
  let ocreated ← pyGet o.createdAt "createdAt"
  let oupdated ← pyGet o.updatedAt "updatedAt"
  let oreq ← pyGet o.requiresShipping "requiresShipping"
  let ostatus ← pyGet o.displayFulfillmentStatus "displayFulfillmentStatus"
  let ocountry ← pyGet o.displayAddressCountryCodeV2 "countryCodeV2"
  let sa ← pyGet o.shippingAddress "shippingAddress"
  let saName ← pyGet sa.name "name"
  let saAddr1 ← pyGet sa.address1 "address1"
  let saCity ← pyGet sa.city "city"
  let saCountry ← pyGet sa.country "country"
  let sl ← pyGet o.shippingLine "shippingLine"
  let slTitle ← pyGet sl.title "title"
  let slCode ← pyGet sl.code "code"
  let slDisc ← pyGet sl.discountedPriceAmount "discountedPriceSet"
  let slOrig ← pyGet sl.originalPriceAmount "originalPriceSet"
  let slCurr ← pyGet sl.discountedPriceCurrency "currencyCode"
  let slTax ← pyGet sl.taxLineAmounts "taxLines"
  let shippingTax : ℚ := if slTax.isEmpty then 0 else slTax.sum
  pure
    { order_id := oid
      order_name := oname
      order_note := o.note.getD ""
      order_closed := oclosed
      order_created_at := ocreated
      order_updated_at := oupdated
      discount_code := o.discountCode
      requires_shipping := oreq
      fulfillment_status := ostatus
      shipping_country := ocountry
      shipping_name := saName
      shipping_address1 := saAddr1
      shipping_address2 := sa.address2
      shipping_city := saCity
      shipping_country_full := saCountry
      shipping_title := slTitle
      shipping_code := slCode
      shipping_discounted_price := slDisc
      shipping_original_price := slOrig
      shipping_currency := slCurr
      shipping_tax_amount := shippingTax }

/-- The per-line-item extraction (transform.py:120-173): identity and
monetary fields (each raising on an absent key), summed discount
allocations, first tax line only, first duty entry only plus its first
nested tax line. -/
def extractLineItemRow (info : OrderInfo) (foId foLoc : String) (node : PLineItemNode) :
    Except String FlatRow := do
  let li ← pyGet node.lineItem "lineItem"
  let liId ← pyGet li.id "id"
  let liSku ← pyGet li.sku "sku"
  let liName ← pyGet li.name "name"
  let liTitle ← pyGet li.title "title"
  let liQty ← pyGet li.quantity "quantity"
  let liVendor ← pyGet li.vendor "vendor"
  let liDiscTotal ← pyGet li.discountedTotalAmount "discountedTotalSet"
  let liOrigTotal ← pyGet li.originalTotalAmount "originalTotalSet"
  let liCurr ← pyGet li.originalTotalCurrency "currencyCode"
  let dallocs ← pyGet li.discountAllocationAmounts "discountAllocations"
  let discountAmount : ℚ := if dallocs.isEmpty then 0 else dallocs.sum
  let taxls ← pyGet li.taxLines "taxLines"
  let taxInfo : ℚ × ℚ × String :=
    match taxls with
    | [] => (0, 0, "")
    | t :: _ => (t.amount, t.rate, t.title)
  let dutyls ← pyGet li.duties "duties"
  let dutyInfo : ℚ × ℚ :=
    match dutyls with
    | [] => (0, 0)
    | d :: _ =>
      (d.priceAmount, match d.taxLineAmounts with | [] => 0 | a :: _ => 0 + a)
  pure
    { order_id := info.order_id
      order_name := info.order_name
      order_note := info.order_note
      order_closed := info.order_closed
      order_created_at := info.order_created_at
      order_updated_at := info.order_updated_at
      discount_code := info.discount_code
      requires_shipping := info.requires_shipping
      fulfillment_status := info.fulfillment_status
      shipping_country := info.shipping_country
      shipping_name := info.shipping_name
      shipping_address1 := info.shipping_address1
      shipping_address2 := info.shipping_address2
      shipping_city := info.shipping_city
      shipping_country_full := info.shipping_country_full
      shipping_title := info.shipping_title
      shipping_code := info.shipping_code
      shipping_discounted_price := info.shipping_discounted_price
      shipping_original_price := info.shipping_original_price
      shipping_currency := info.shipping_currency
      shipping_tax_amount := info.shipping_tax_amount
      fulfillment_order_id := foId
      assigned_location := foLoc
      lineitem_id := liId
      sku := liSku
      product_name := liName
      product_title := liTitle
      quantity := liQty
      vendor := liVendor
      dicounted_total := liDiscTotal
      original_total := liOrigTotal
      currency := liCurr
      discount_amount := discountAmount
      tax_amount := taxInfo.1
      tax_rate := taxInfo.2.1
      tax_title := taxInfo.2.2
      duty_amount := dutyInfo.1
      duty_tax := dutyInfo.2 }

/-- The inner loop over one fulfillment order (transform.py:114-173): read
its id and assigned location, then produce one row per line-item node. -/
def flattenFulfillment (info : OrderInfo) (fo : PFulfillmentOrder) :
    Except String (List FlatRow) := do
  let foId ← pyGet fo.id "id"
  let foLoc ← pyGet fo.assignedLocationName "assignedLocation"
  let nodes ← pyGet fo.lineItemNodes "lineItems"
  exList (extractLineItemRow info foId foLoc) nodes

/-- Processing of one listed file (one iteration of the loop at
transform.py:71-173): a vanished file is skipped with a warning; otherwise
`["data"]["order"]` is read (raising on a malformed envelope) and every
line item of every fulfillment order yields one row, unconditionally. -/
def flattenFile : FileEntry → Except String (List FlatRow)
  | FileEntry.missing => Except.ok []
  | FileEntry.file dataOrder => do
    let o ← pyGet dataOrder "order"
    let info ← extractOrderInfo o
    let fos ← pyGet o.fulfillmentOrderNodes "fulfillmentOrders"
    let rowLists ← exList (flattenFulfillment info) fos
    pure rowLists.flatten

/-- `flatten` (transform.py:67-174): the concatenated rows of all listed
files; an exception raised while processing any file propagates and aborts
the whole run (there is no `try`/`except` in `flatten`). -/
def flattenE (files : List FileEntry) : Except String (List FlatRow) := do
  let rowLists ← exList flattenFile files
  pure rowLists.flatten

/-! ### The enrichment columns of `post_transform` (transform.py:181-205) -/

/-- The column assignments at transform.py:186-204 followed by the
`REQUIRED_COLS` selection at transform.py:205, as one per-row map.  `fmtTs`
abstracts the `pd.to_datetime(...) + 8h` / `strftime` reformatting of the
timestamp column. -/
def enrichRow (fmtTs : String → String) (fr : FlatRow) : Row where
  order_name := pySplitLastDash fr.order_name
  order_note := if fr.order_note = "" then "" else stripNewlines fr.order_note
  order_closed := if fr.order_closed then "closed" else "open"
  order_created_at := fmtTs fr.order_created_at
  requires_shipping := if fr.requires_shipping then "shipping" else "no"
  fulfillment_status := pyLower fr.fulfillment_status
  assigned_location := warehouse_code fr.assigned_location
  adjusted_discounted_total := round2 (fr.original_total - fr.discount_amount)
  total_tax := round2 fr.tax_amount
  total_duty := round2 (fr.duty_amount + fr.duty_tax)
  total_shipping := round2 (fr.shipping_discounted_price + fr.shipping_tax_amount)
  quantity_cancel := 0
  sales_kind := "order"
  div := "S21"
  country_code := "SG"
  discount_type := "percentage"
  shipping_country := some fr.shipping_country
  sku := fr.sku
  product_name := fr.product_name
  quantity := fr.quantity
  currency := fr.currency
  original_total := fr.original_total
  vendor := fr.vendor
  duty_tax := fr.duty_tax
  shipping_code := fr.shipping_code
  shipping_name := fr.shipping_name
  tax_title := fr.tax_title
  shipping_address1 := fr.shipping_address1
  discount_amount := fr.discount_amount
  discount_code := fr.discount_code

/-- The per-row presentation pass. -/
def present (r : Row) : EmitRow where
  order_name := r.order_name
  order_closed := r.order_closed
  country_code := r.country_code
  shipping_country := r.shipping_country
  assigned_location := r.assigned_location
  fulfillment_status := r.fulfillment_status
  sku := r.sku
  product_name := r.product_name
  order_created_at := r.order_created_at
  quantity := r.quantity
  quantity_cancel := r.quantity_cancel
  sales_kind := r.sales_kind
  currency := r.currency
  original_total := r.original_total
  adjusted_discounted_total := r.adjusted_discounted_total
  div := r.div
  vendor := r.vendor
  total_shipping := presentShipping r.total_shipping
  total_duty := presentDuty r.total_duty
  shipping_code := r.shipping_code
  shipping_name := r.shipping_name
  tax_title := r.tax_title
  total_tax := r.total_tax
  shipping_address1 := r.shipping_address1
  order_note := r.order_note
  discount_amount := presentDiscount r.discount_amount
  discount_type := r.discount_type
  discount_code := r.discount_code
  requires_shipping := r.requires_shipping

/-- `post_transform` (transform.py:181-216) from already-flattened rows:
enrich and select columns, aggregate duties/shipping, rewrite gift-wrap
rows, then apply the presentation pass (the rename only retitles the CSV
header and the `duty_tax` column is dropped by the `EmitRow` shape). -/
def post_transform (fmtTs : String → String) (frows : List FlatRow) : List EmitRow :=
  ((giftbox_transform (duty_tax (frows.map (enrichRow fmtTs)))).map present)

/-! ### Supporting lemmas about the helpers -/

theorem mem_pdUniqueAux {x : String} :
    ∀ (l seen : List String), x ∈ pdUniqueAux seen l ↔ x ∈ l ∧ x ∉ seen := by
  intro l
  induction l with
  | nil => intro seen; simp [pdUniqueAux]
  | cons y ys ih =>
    intro seen
    by_cases hy : seen.contains y = true
    · have hym : y ∈ seen := by simpa using hy
      have h1 : pdUniqueAux seen (y :: ys) = pdUniqueAux seen ys := by
        simp only [pdUniqueAux, hy, if_true]
      rw [h1, ih seen]
      constructor
      · rintro ⟨hxl, hxs⟩
        exact ⟨List.mem_cons_of_mem _ hxl, hxs⟩
      · rintro ⟨hxl, hxs⟩
        rcases List.mem_cons.mp hxl with h | h
        · subst h
          exact absurd hym hxs
        · exact ⟨h, hxs⟩
    · have hym : y ∉ seen := fun hm => hy (by simpa using hm)
      have h1 : pdUniqueAux seen (y :: ys) = y :: pdUniqueAux (y :: seen) ys := by
        simp only [pdUniqueAux]
        rw [if_neg hy]
      rw [h1, List.mem_cons, ih (y :: seen)]
      constructor
      · rintro (h | ⟨hxl, hxs⟩)
        · subst h
          exact ⟨List.mem_cons_self _ _, hym⟩
        · refine ⟨List.mem_cons_of_mem _ hxl, fun hmem => hxs (List.mem_cons_of_mem _ hmem)⟩
      · rintro ⟨hxl, hxs⟩
        by_cases hxy : x = y
        · exact Or.inl hxy
        · rcases List.mem_cons.mp hxl with h | h
          · exact Or.inl h
          · refine Or.inr ⟨h, fun hmem => ?_⟩
            rcases List.mem_cons.mp hmem with h2 | h2
            · exact hxy h2
            · exact hxs h2

theorem mem_pdUnique {x : String} {l : List String} : x ∈ pdUnique l ↔ x ∈ l := by
  rw [pdUnique, mem_pdUniqueAux]
  simp

theorem mem_insertSorted {x s : String} :
    ∀ {l : List String}, x ∈ insertSorted s l ↔ x = s ∨ x ∈ l := by
  intro l
  induction l with
  | nil => simp [insertSorted]
  | cons t ts ih =>
    by_cases h : strLeB s t
    · simp [insertSorted, h, List.mem_cons]
    · simp only [insertSorted, h, Bool.false_eq_true, if_false, List.mem_cons, ih]
      tauto

theorem mem_sortStrings {x : String} :
    ∀ {l : List String}, x ∈ sortStrings l ↔ x ∈ l := by
  intro l
  induction l with
  | nil => simp [sortStrings]
  | cons s ss ih =>
    simp only [sortStrings, mem_insertSorted, List.mem_cons, ih]

theorem splitOnChar_of_not_mem {c : Char} :
    ∀ {l : List Char}, c ∉ l → splitOnChar c l = [l] := by
  intro l
  induction l with
  | nil => intro _; rfl
  | cons x xs ih =>
    intro h
    have hx : ¬ x = c := fun he => h (he ▸ List.mem_cons_self _ _)
    have hxs : c ∉ xs := fun hm => h (List.mem_cons_of_mem _ hm)
    simp only [splitOnChar, hx, if_false, ih hxs]

theorem le_pyMax_base (a : ℚ) : ∀ (xs : List ℚ), a ≤ pyMax a xs := by
  intro xs
  induction xs generalizing a with
  | nil => simp [pyMax]
  | cons x xs ih =>
    calc a ≤ max a x := le_max_left a x
    _ ≤ pyMax (max a x) xs := ih (max a x)
    _ = pyMax a (x :: xs) := rfl

theorem le_pyMax_of_mem {x : ℚ} (a : ℚ) :
    ∀ {xs : List ℚ}, x ∈ xs → x ≤ pyMax a xs := by
  intro xs
  induction xs generalizing a with
  | nil => intro h; cases h
  | cons y ys ih =>
    intro h
    rcases List.mem_cons.mp h with h | h
    · subst h
      calc x ≤ max a x := le_max_right a x
      _ ≤ pyMax (max a x) ys := le_pyMax_base _ ys
      _ = pyMax a (x :: ys) := rfl
    · exact ih (max a y) h

theorem pyMax_mem : ∀ (xs : List ℚ) (a : ℚ), pyMax a xs = a ∨ pyMax a xs ∈ xs := by
  intro xs
  induction xs with
  | nil => exact fun _ => Or.inl rfl
  | cons x xs ih =>
    intro a
    rcases ih (max a x) with h | h
    · rcases max_choice a x with hm | hm
      · left
        show pyMax (max a x) xs = a
        rw [h, hm]
      · right
        refine List.mem_cons.mpr (Or.inl ?_)
        show pyMax (max a x) xs = x
        rw [h, hm]
    · exact Or.inr (List.mem_cons_of_mem _ h)

/-! ### Sample data for concrete witnesses -/

/-- A fixed plain row at the physical location, used by concrete witnesses. -/
def sampleRow : Row where
  order_name := "1001"
  order_closed := "closed"
  country_code := "SG"
  shipping_country := some "SG"
  assigned_location := "051"
  fulfillment_status := "fulfilled"
  sku := "SKU-1"
  product_name := "Shirt"
  order_created_at := "01-01-2025 08:00"
  quantity := 1
  quantity_cancel := 0
  sales_kind := "order"
  currency := "SGD"
  original_total := 10
  adjusted_discounted_total := 10
  div := "S21"
  vendor := "Acme"
  total_shipping := 0
  total_duty := 0
  duty_tax := 0
  shipping_code := "Standard"
  shipping_name := "Jo Tan"
  tax_title := "GST"
  total_tax := 0
  shipping_address1 := "1 Road"
  order_note := ""
  discount_amount := 0
  discount_type := "percentage"
  discount_code := some ""
  requires_shipping := "shipping"

/-! ### C10 — the empty-subset skip branch is unreachable -/

/-- C10: for every order group whose unique normalized locations contain
`"888"` or `"999"` (the `participates` test of `_duty_tax`,
transform.py:236-237), the subset of rows at locations
`{"051", "888", "999"}` (`order_dict`, transform.py:238) is non-empty, so
the `continue` branch that logs "No rows" (transform.py:240-242) can never
run. -/
theorem duty_skip_branch_unreachable (g : List Row) (hp : participates g = true) :
    orderDict g ≠ [] := by
  have h888 : (pdUnique (g.map Row.assigned_location)).contains "888" = true ∨
      (pdUnique (g.map Row.assigned_location)).contains "999" = true := by
    simpa [participates, Bool.or_eq_true] using hp
  have hmem : ("888" ∈ g.map Row.assigned_location) ∨ ("999" ∈ g.map Row.assigned_location) := by
    rcases h888 with h | h
    · exact Or.inl (mem_pdUnique.mp (by simpa using h))
    · exact Or.inr (mem_pdUnique.mp (by simpa using h))
  rcases hmem with h | h <;>
  · obtain ⟨r, hr, hloc⟩ := List.mem_map.mp h
    refine List.ne_nil_of_mem (a := r) (List.mem_filter.mpr ⟨hr, ?_⟩)
    simp [hloc]

/-- Concrete instantiation of `duty_skip_branch_unreachable`: a one-row group
at location `"888"`. -/
theorem duty_skip_branch_unreachable_witness :
    participates [{ sampleRow with assigned_location := "888" }] = true ∧
    orderDict [{ sampleRow with assigned_location := "888" }] ≠ [] :=
  ⟨by decide, duty_skip_branch_unreachable _ (by decide)⟩

/-! ### C4 — the gift-wrap rewriter -/

/-- The gift-wrap rule as the claim words it (drop non-billable `"PRE ORDER"`
placeholders, rewrite the remaining `"PRE ORDER"` rows to the fixed
gift-wrap identifiers, leave all other locations untouched), to be compared
with `giftbox_transform` as translated from the source. -/
def giftboxSpecRule (rows : List Row) : List Row :=
  rows.filterMap (fun r =>
    if r.assigned_location = "PRE ORDER" then
      if r.adjusted_discounted_total ≤ 0 then none
      else
        some { r with
          assigned_location := "051"
          sku := "900000000-PROPS"
          product_name := "Gift Wrap"
          vendor := "Club21"
          discount_code := some "" }
    else some r)

/-- C4: `_giftbox_transform` removes every `"PRE ORDER"` row with
`adjusted_discounted_total <= 0`, rewrites every remaining `"PRE ORDER"` row
in place to location `"051"`, SKU `"900000000-PROPS"`, product name
`"Gift Wrap"`, vendor `"Club21"` with cleared discount code, and leaves all
rows at other locations untouched. -/
theorem giftbox_rewriter_correct (rows : List Row) :
    giftbox_transform rows = giftboxSpecRule rows := by
  induction rows with
  | nil => rfl
  | cons r rs ih =>
    by_cases h1 : r.assigned_location = "PRE ORDER"
    · by_cases h2 : r.adjusted_discounted_total ≤ 0
      · simpa [giftbox_transform, giftboxSpecRule, List.filter_cons, List.filterMap_cons,
          h1, h2, giftboxRewrite] using ih
      · simpa [giftbox_transform, giftboxSpecRule, List.filter_cons, List.filterMap_cons,
          h1, h2, giftboxRewrite] using ih
    · by_cases h2 : r.adjusted_discounted_total ≤ 0 <;>
      · simpa [giftbox_transform, giftboxSpecRule, List.filter_cons, List.filterMap_cons,
          h1, h2, giftboxRewrite] using ih

/-! ### C8 — the emitter's presentation pass -/

/-- C8: in the final presentation pass (transform.py:209-211), a strictly
positive `discount_amount` is negated and a non-positive one becomes the
literal string `"-0"`; a non-positive `total_duty` becomes the literal
two-character string of two double quotes while a positive one is kept; and
`total_shipping` is stringified when strictly positive, else replaced by
the literal string `"0"`. -/
theorem emitter_presentation (r : Row) :
    ((0 < r.discount_amount →
        (present r).discount_amount = Cell.num (-(r.discount_amount))) ∧
      (r.discount_amount ≤ 0 → (present r).discount_amount = Cell.str "-0")) ∧
    (presentDiscount (25/2) = Cell.num (-(25/2))) ∧
    ((0 < r.total_duty → (present r).total_duty = Cell.num r.total_duty) ∧
      (r.total_duty ≤ 0 → (present r).total_duty = Cell.str "\"\"")) ∧
    (("\"\"" : String).length = 2) ∧
    ((0 < r.total_shipping → (present r).total_shipping = floatStr r.total_shipping) ∧
      (r.total_shipping ≤ 0 → (present r).total_shipping = "0")) := by
  refine ⟨⟨fun h => ?_, fun h => ?_⟩, ?_, ⟨fun h => ?_, fun h => ?_⟩, ?_, ⟨fun h => ?_, fun h => ?_⟩⟩
  · simp [present, presentDiscount, h]
  · simp [present, presentDiscount, not_lt.mpr h]
  · norm_num [presentDiscount]
  · simp [present, presentDuty, h]
  · simp [present, presentDuty, not_lt.mpr h]
  · rfl
  · simp [present, presentShipping, h]
  · simp [present, presentShipping, not_lt.mpr h]

/-- A row with discount `12.50`, non-positive duty, and positive shipping,
for the presentation-pass witness. -/
def presentationSample : Row :=
  { sampleRow with discount_amount := 25/2, total_duty := 0, total_shipping := 3 }

/-- Concrete instantiation of `emitter_presentation` at `presentationSample`. -/
theorem emitter_presentation_witness :
    (present presentationSample).discount_amount = Cell.num (-(25/2)) ∧
    (present presentationSample).total_duty = Cell.str "\"\"" ∧
    (present presentationSample).total_shipping = floatStr 3 :=
  ⟨(emitter_presentation presentationSample).1.1 (by norm_num [presentationSample]),
   (emitter_presentation presentationSample).2.2.1.2 (by norm_num [presentationSample]),
   (emitter_presentation presentationSample).2.2.2.2.1 (by norm_num [presentationSample])⟩

/-! ### C1 and C7 — synthetic duty and delivery rows -/

/-- Recognizes the synthetic "Duties & Taxes" row by its fixed SKU. -/
def isDutyRow (r : Row) : Bool := r.sku == "90000000-DUTIES"

/-- Recognizes the synthetic "Delivery" row by its fixed SKU. -/
def isDeliveryRow (r : Row) : Bool := r.sku == "9000000-DELIVER"

/-- Unfolding of `synthForGroup` for a participating group with a non-empty
`order_dict`. -/
theorem synthForGroup_eq (k : String) (g : List Row) (first : Row) (rest : List Row)
    (hp : participates g = true) (hS : orderDict g = first :: rest) :
    synthForGroup k g =
      (if 0 < ((first :: rest).map Row.total_duty).sum then
        [mkDutyRow k first (((first :: rest).map Row.total_duty).sum)
          (((first :: rest).map Row.duty_tax).sum)]
       else []) ++
      (if 0 < pyMax first.total_shipping (rest.map Row.total_shipping) then
        [mkDeliveryRow k first (pyMax first.total_shipping (rest.map Row.total_shipping))]
       else []) := by
  simp only [synthForGroup, hp, if_true, hS]

theorem isDutyRow_mkDutyRow (k : String) (f : Row) (td dt : ℚ) :
    isDutyRow (mkDutyRow k f td dt) = true := by
  simp [isDutyRow, mkDutyRow]

theorem isDutyRow_mkDeliveryRow (k : String) (f : Row) (ts : ℚ) :
    isDutyRow (mkDeliveryRow k f ts) = false := by
  simp [isDutyRow, mkDeliveryRow]

theorem isDeliveryRow_mkDutyRow (k : String) (f : Row) (td dt : ℚ) :
    isDeliveryRow (mkDutyRow k f td dt) = false := by
  simp [isDeliveryRow, mkDutyRow]

theorem isDeliveryRow_mkDeliveryRow (k : String) (f : Row) (ts : ℚ) :
    isDeliveryRow (mkDeliveryRow k f ts) = true := by
  simp [isDeliveryRow, mkDeliveryRow]

/-- C1: for a participating order group, with `S = order_dict` its rows at
locations `{"051", "888", "999"}`: when the summed `total_duty` over `S` is
strictly positive, exactly one synthetic "Duties & Taxes" row is appended,
with SKU `"90000000-DUTIES"`, `adjusted_discounted_total` the duty sum,
`total_tax` the `duty_tax` sum over `S`, the shared descriptive fields of
the first row of `S`, and `total_duty`, `total_shipping`, `duty_tax`,
`discount_amount` all zero; when the sum is not strictly positive, no duty
row is appended. -/
theorem duty_synthesis (k : String) (g : List Row) (first : Row) (rest : List Row)
    (hp : participates g = true) (hS : orderDict g = first :: rest) :
    (0 < ((first :: rest).map Row.total_duty).sum →
      ∃ r, (synthForGroup k g).filter isDutyRow = [r] ∧
        r.order_name = k ∧
        r.sku = "90000000-DUTIES" ∧
        r.product_name = "Duties & Taxes" ∧
        r.adjusted_discounted_total = ((first :: rest).map Row.total_duty).sum ∧
        r.total_tax = ((first :: rest).map Row.duty_tax).sum ∧
        r.order_closed = first.order_closed ∧
        r.shipping_code = first.shipping_code ∧
        r.fulfillment_status = first.fulfillment_status ∧
        r.order_created_at = first.order_created_at ∧
        r.currency = first.currency ∧
        r.shipping_name = first.shipping_name ∧
        r.shipping_address1 = first.shipping_address1 ∧
        r.order_note = first.order_note ∧
        r.total_duty = 0 ∧ r.total_shipping = 0 ∧ r.duty_tax = 0 ∧ r.discount_amount = 0) ∧
    (¬ 0 < ((first :: rest).map Row.total_duty).sum →
      (synthForGroup k g).filter isDutyRow = []) := by
  have hsyn := synthForGroup_eq k g first rest hp hS
  constructor
  · intro hpos
    refine ⟨mkDutyRow k first (((first :: rest).map Row.total_duty).sum)
      (((first :: rest).map Row.duty_tax).sum), ?_, rfl, rfl, rfl, rfl, rfl, rfl, rfl,
      rfl, rfl, rfl, rfl, rfl, rfl, rfl, rfl, rfl, rfl⟩
    rw [hsyn, if_pos hpos]
    by_cases hts : 0 < pyMax first.total_shipping (rest.map Row.total_shipping)
    · rw [if_pos hts]
      simp only [List.singleton_append, List.filter_cons, isDutyRow_mkDutyRow,
        isDutyRow_mkDeliveryRow, if_true, if_false, List.filter_nil]
      simp
    · rw [if_neg hts]
      simp only [List.append_nil, List.filter_cons, isDutyRow_mkDutyRow, if_true,
        List.filter_nil]
  · intro hneg
    rw [hsyn, if_neg hneg, List.nil_append]
    by_cases hts : 0 < pyMax first.total_shipping (rest.map Row.total_shipping)
    · rw [if_pos hts]
      simp only [List.filter_cons, isDutyRow_mkDeliveryRow, if_false, List.filter_nil]
      simp
    · rw [if_neg hts, List.filter_nil]

/-- One `"888"`-location row carrying duty, for concrete witnesses. -/
def dutyLegRow : Row :=
  { sampleRow with
    assigned_location := "888"
    total_duty := 5
    duty_tax := 1
    total_shipping := 2 }

/-- Concrete instantiation of `duty_synthesis`: a one-row group at `"888"`
with `total_duty = 5`. -/
theorem duty_synthesis_witness :
    ∃ r, (synthForGroup "1001" [dutyLegRow]).filter isDutyRow = [r] ∧
      r.adjusted_discounted_total = (([dutyLegRow] : List Row).map Row.total_duty).sum := by
  obtain ⟨r, hfil, -, -, -, hadj, -⟩ :=
    (duty_synthesis "1001" [dutyLegRow] dutyLegRow [] (by decide) (by decide)).1
      (by norm_num [dutyLegRow, sampleRow])
  exact ⟨r, hfil, hadj⟩

/-- C7: for a participating order group, the aggregator computes the maximum
of `total_shipping` over `order_dict` (an upper bound of the subset that is
attained by one of its rows — the maximum, not the sum), and appends exactly
one synthetic "Delivery" row with SKU `"9000000-DELIVER"` whose
`original_total` and `adjusted_discounted_total` both equal that maximum,
with the other derived monetary fields zeroed, if and only if the maximum is
strictly positive. -/
theorem delivery_synthesis (k : String) (g : List Row) (first : Row) (rest : List Row)
    (hp : participates g = true) (hS : orderDict g = first :: rest) :
    (0 < pyMax first.total_shipping (rest.map Row.total_shipping) →
      ∃ r, (synthForGroup k g).filter isDeliveryRow = [r] ∧
        r.order_name = k ∧
        r.sku = "9000000-DELIVER" ∧
        r.product_name = "Delivery" ∧
        r.original_total = pyMax first.total_shipping (rest.map Row.total_shipping) ∧
        r.adjusted_discounted_total = pyMax first.total_shipping (rest.map Row.total_shipping) ∧
        (∀ x ∈ first :: rest, x.total_shipping ≤ r.original_total) ∧
        r.original_total ∈ (first :: rest).map Row.total_shipping ∧
        r.total_duty = 0 ∧ r.total_shipping = 0 ∧ r.duty_tax = 0 ∧ r.total_tax = 0 ∧
        r.discount_amount = 0) ∧
    (¬ 0 < pyMax first.total_shipping (rest.map Row.total_shipping) →
      (synthForGroup k g).filter isDeliveryRow = []) := by
  have hsyn := synthForGroup_eq k g first rest hp hS
  constructor
  · intro hpos
    refine ⟨mkDeliveryRow k first (pyMax first.total_shipping (rest.map Row.total_shipping)),
      ?_, rfl, rfl, rfl, rfl, rfl, ?_, ?_, rfl, rfl, rfl, rfl, rfl⟩
    · rw [hsyn, if_pos hpos]
      by_cases htd : 0 < ((first :: rest).map Row.total_duty).sum
      · rw [if_pos htd]
        simp only [List.singleton_append, List.filter_cons, isDeliveryRow_mkDutyRow,
          isDeliveryRow_mkDeliveryRow, if_true, if_false, List.filter_nil]
        simp
      · rw [if_neg htd, List.nil_append]
        simp only [List.filter_cons, isDeliveryRow_mkDeliveryRow, if_true, List.filter_nil]
    · intro x hx
      rcases List.mem_cons.mp hx with h | h
      · subst h
        exact le_pyMax_base _ _
      · exact le_pyMax_of_mem _ (List.mem_map_of_mem Row.total_shipping h)
    · show pyMax first.total_shipping (rest.map Row.total_shipping) ∈
        (first :: rest).map Row.total_shipping
      rcases pyMax_mem (rest.map Row.total_shipping) first.total_shipping with h | h
      · rw [List.map_cons, h]
        exact List.mem_cons_self _ _
      · rw [List.map_cons]
        exact List.mem_cons_of_mem _ h
  · intro hneg
    rw [hsyn, if_neg hneg, List.append_nil]
    by_cases htd : 0 < ((first :: rest).map Row.total_duty).sum
    · rw [if_pos htd]
      simp only [List.filter_cons, isDeliveryRow_mkDutyRow, if_false, List.filter_nil]
      simp
    · rw [if_neg htd, List.filter_nil]

/-- Concrete instantiation of `delivery_synthesis`: the shipping maximum of
the `dutyLegRow` group is its own (positive) `total_shipping`. -/
theorem delivery_synthesis_witness :
    ∃ r, (synthForGroup "1001" [dutyLegRow]).filter isDeliveryRow = [r] ∧
      r.original_total = pyMax dutyLegRow.total_shipping [] := by
  obtain ⟨r, hfil, -, -, -, horig, -⟩ :=
    (delivery_synthesis "1001" [dutyLegRow] dutyLegRow [] (by decide) (by decide)).1
      (by norm_num [pyMax, dutyLegRow, sampleRow])
  exact ⟨r, hfil, horig⟩

/-! ### C3 — identity on orders without virtual locations -/

/-- Every synthetic row of a group carries the group key as `order_name`. -/
theorem mem_synthForGroup_order_name {r : Row} {k : String} {g : List Row}
    (h : r ∈ synthForGroup k g) : r.order_name = k := by
  unfold synthForGroup at h
  split at h
  · split at h
    · cases h
    · rcases List.mem_append.mp h with h | h
      · split at h
        · rw [List.mem_singleton.mp h]
          rfl
        · cases h
      · split at h
        · rw [List.mem_singleton.mp h]
          rfl
        · cases h
  · cases h

/-- Every row of `syntheticRows` belongs to the synthesis of the group named
by its own `order_name`. -/
theorem mem_syntheticRows {r : Row} {rows : List Row} (h : r ∈ syntheticRows rows) :
    r ∈ synthForGroup r.order_name (groupRows rows r.order_name) := by
  obtain ⟨k, -, hk⟩ := List.mem_flatMap.mp h
  have hname := mem_synthForGroup_order_name hk
  rwa [hname]

/-- In a non-participating group, no row sits at a virtual location. -/
theorem locKeep_of_not_participates {rows : List Row} {k : String}
    (hp : participates (groupRows rows k) = false) :
    ∀ r ∈ groupRows rows k, locKeep r = true := by
  intro r hr
  have hloc : r.assigned_location ∈ pdUnique ((groupRows rows k).map Row.assigned_location) :=
    mem_pdUnique.mpr (List.mem_map_of_mem _ hr)
  have hboth : (pdUnique ((groupRows rows k).map Row.assigned_location)).contains "888" = false ∧
      (pdUnique ((groupRows rows k).map Row.assigned_location)).contains "999" = false := by
    have := hp
    unfold participates at this
    exact Bool.or_eq_false_iff.mp this
  have h8 : r.assigned_location ≠ "888" := by
    intro he
    rw [he] at hloc
    have hc : (pdUnique ((groupRows rows k).map Row.assigned_location)).contains "888" = true := by
      simpa using hloc
    rw [hboth.1] at hc
    exact Bool.noConfusion hc
  have h9 : r.assigned_location ≠ "999" := by
    intro he
    rw [he] at hloc
    have hc : (pdUnique ((groupRows rows k).map Row.assigned_location)).contains "999" = true := by
      simpa using hloc
    rw [hboth.2] at hc
    exact Bool.noConfusion hc
  simp [locKeep, h8, h9]

/-- C3: for every order group none of whose (normalized) locations is
`"888"` or `"999"`, `_duty_tax` is the identity on that group: the rows of
the output table with that order name are exactly the group's input rows,
in order, with unchanged field values, and no synthetic row is added for
it. -/
theorem aggregator_identity (rows : List Row) (k : String)
    (hp : participates (groupRows rows k) = false) :
    (duty_tax rows).filter (fun r => r.order_name == k) = groupRows rows k := by
  unfold duty_tax
  rw [List.filter_filter, List.filter_append]
  have h1 : (syntheticRows rows).filter
      (fun r => (r.order_name == k) && locKeep r) = [] := by
    rw [List.filter_eq_nil_iff]
    intro r hr hcontra
    have hname : r.order_name = k := by
      have hand := (Bool.and_eq_true _ _).mp hcontra
      exact beq_iff_eq.mp hand.1
    have hmem := mem_syntheticRows hr
    rw [hname] at hmem
    rw [show synthForGroup k (groupRows rows k) = [] from by
      unfold synthForGroup
      rw [hp]
      rfl] at hmem
    cases hmem
  have h2 : rows.filter (fun r => (r.order_name == k) && locKeep r) = groupRows rows k := by
    unfold groupRows
    apply List.filter_congr
    intro r hr
    by_cases hname : r.order_name == k
    · have hrg : r ∈ groupRows rows k := List.mem_filter.mpr ⟨hr, hname⟩
      have hkeep := locKeep_of_not_participates hp r hrg
      rw [hname, hkeep]
      rfl
    · simp [hname]
  rw [h1, h2, List.append_nil]

/-- Concrete instantiation of `aggregator_identity`: a single plain `"051"`
order passes through the aggregator unchanged. -/
theorem aggregator_identity_witness :
    participates (groupRows [sampleRow] "1001") = false ∧
    (duty_tax [sampleRow]).filter (fun r => r.order_name == "1001") =
      groupRows [sampleRow] "1001" :=
  ⟨by decide, aggregator_identity [sampleRow] "1001" (by decide)⟩

/-! ### C2 — no virtual-location row survives; end-to-end scenario -/

/-- Shared shipping address of the scenario orders. -/
def scenAddress : PShippingAddress where
  name := some "Jo Tan"
  address1 := some "1 Road"
  address2 := none
  city := some "Singapore"
  country := some "Singapore"

/-- Shared zero-cost shipping line of the scenario orders. -/
def scenShippingLine : PShippingLine where
  title := some "Standard"
  code := some "STD"
  discountedPriceAmount := some 0
  originalPriceAmount := some 0
  discountedPriceCurrency := some "SGD"
  taxLineAmounts := some []

/-- Line item of the plain order: no duty, no discount. -/
def plainLineItem : PLineItem where
  id := some "LI1"
  sku := some "SKU-1"
  name := some "Shirt"
  title := some "Shirt"
  quantity := some 1
  vendor := some "Acme"
  discountedTotalAmount := some 10
  originalTotalAmount := some 10
  originalTotalCurrency := some "SGD"
  discountAllocationAmounts := some []
  taxLines := some []
  duties := some []

def plainFulfillment : PFulfillmentOrder where
  id := some "FO1"
  assignedLocationName := some "051-MAIN"
  lineItemNodes := some [{ lineItem := some plainLineItem }]

/-- The plain fulfilled order at location `"051"`. -/
def plainOrder : POrder where
  id := some "gid1"
  name := some "ORD-1"
  note := some ""
  closed := some true
  createdAt := some "2025-01-01T00:00:00Z"
  updatedAt := some "2025-01-02T00:00:00Z"
  discountCode := none
  requiresShipping := some true
  displayFulfillmentStatus := some "FULFILLED"
  displayAddressCountryCodeV2 := some "SG"
  shippingAddress := some scenAddress
  shippingLine := some scenShippingLine
  fulfillmentOrderNodes := some [plainFulfillment]

/-- The split order's `"051"` leg line item. -/
def splitLineItem051 : PLineItem where
  id := some "LI2"
  sku := some "SKU-2"
  name := some "Coat"
  title := some "Coat"
  quantity := some 1
  vendor := some "Acme"
  discountedTotalAmount := some 20
  originalTotalAmount := some 20
  originalTotalCurrency := some "SGD"
  discountAllocationAmounts := some []
  taxLines := some []
  duties := some []

/-- The split order's `"888"` leg line item: `total_duty = 5.00`. -/
def splitLineItem888 : PLineItem where
  id := some "LI3"
  sku := some "SKU-2"
  name := some "Coat"
  title := some "Coat"
  quantity := some 1
  vendor := some "Acme"
  discountedTotalAmount := some 0
  originalTotalAmount := some 0
  originalTotalCurrency := some "SGD"
  discountAllocationAmounts := some []
  taxLines := some []
  duties := some [{ priceAmount := 5, taxLineAmounts := [] }]

def splitFulfillment051 : PFulfillmentOrder where
  id := some "FO2"
  assignedLocationName := some "051-MAIN"
  lineItemNodes := some [{ lineItem := some splitLineItem051 }]

def splitFulfillment888 : PFulfillmentOrder where
  id := some "FO3"
  assignedLocationName := some "888"
  lineItemNodes := some [{ lineItem := some splitLineItem888 }]

/-- The split order with legs at `"051"` and `"888"`. -/
def splitOrder : POrder where
  id := some "gid2"
  name := some "ORD-2"
  note := some ""
  closed := some true
  createdAt := some "2025-01-01T00:00:00Z"
  updatedAt := some "2025-01-02T00:00:00Z"
  discountCode := none
  requiresShipping := some true
  displayFulfillmentStatus := some "FULFILLED"
  displayAddressCountryCodeV2 := some "SG"
  shippingAddress := some scenAddress
  shippingLine := some scenShippingLine
  fulfillmentOrderNodes := some [splitFulfillment051, splitFulfillment888]

/-- The two scenario documents as directory entries. -/
def scenFiles : List FileEntry :=
  [FileEntry.file (some plainOrder), FileEntry.file (some splitOrder)]

/-- The flattened row of the plain order. -/
def scenFr1 : FlatRow where
  order_id := "gid1"
  order_name := "ORD-1"
  order_note := ""
  order_closed := true
  order_created_at := "2025-01-01T00:00:00Z"
  order_updated_at := "2025-01-02T00:00:00Z"
  discount_code := none
  requires_shipping := true
  fulfillment_status := "FULFILLED"
  shipping_country := "SG"
  shipping_name := "Jo Tan"
  shipping_address1 := "1 Road"
  shipping_address2 := none
  shipping_city := "Singapore"
  shipping_country_full := "Singapore"
  shipping_title := "Standard"
  shipping_code := "STD"
  shipping_discounted_price := 0
  shipping_original_price := 0
  shipping_currency := "SGD"
  shipping_tax_amount := 0
  fulfillment_order_id := "FO1"
  assigned_location := "051-MAIN"
  lineitem_id := "LI1"
  sku := "SKU-1"
  product_name := "Shirt"
  product_title := "Shirt"
  quantity := 1
  vendor := "Acme"
  dicounted_total := 10
  original_total := 10
  currency := "SGD"
  discount_amount := 0
  tax_amount := 0
  tax_rate := 0
  tax_title := ""
  duty_amount := 0
  duty_tax := 0

/-- The flattened row of the split order's `"051"` leg. -/
def scenFr2 : FlatRow where
  order_id := "gid2"
  order_name := "ORD-2"
  order_note := ""
  order_closed := true
  order_created_at := "2025-01-01T00:00:00Z"
  order_updated_at := "2025-01-02T00:00:00Z"
  discount_code := none
  requires_shipping := true
  fulfillment_status := "FULFILLED"
  shipping_country := "SG"
  shipping_name := "Jo Tan"
  shipping_address1 := "1 Road"
  shipping_address2 := none
  shipping_city := "Singapore"
  shipping_country_full := "Singapore"
  shipping_title := "Standard"
  shipping_code := "STD"
  shipping_discounted_price := 0
  shipping_original_price := 0
  shipping_currency := "SGD"
  shipping_tax_amount := 0
  fulfillment_order_id := "FO2"
  assigned_location := "051-MAIN"
  lineitem_id := "LI2"
  sku := "SKU-2"
  product_name := "Coat"
  product_title := "Coat"
  quantity := 1
  vendor := "Acme"
  dicounted_total := 20
  original_total := 20
  currency := "SGD"
  discount_amount := 0
  tax_amount := 0
  tax_rate := 0
  tax_title := ""
  duty_amount := 0
  duty_tax := 0

/-- The flattened row of the split order's `"888"` leg. -/
def scenFr3 : FlatRow where
  order_id := "gid2"
  order_name := "ORD-2"
  order_note := ""
  order_closed := true
  order_created_at := "2025-01-01T00:00:00Z"
  order_updated_at := "2025-01-02T00:00:00Z"
  discount_code := none
  requires_shipping := true
  fulfillment_status := "FULFILLED"
  shipping_country := "SG"
  shipping_name := "Jo Tan"
  shipping_address1 := "1 Road"
  shipping_address2 := none
  shipping_city := "Singapore"
  shipping_country_full := "Singapore"
  shipping_title := "Standard"
  shipping_code := "STD"
  shipping_discounted_price := 0
  shipping_original_price := 0
  shipping_currency := "SGD"
  shipping_tax_amount := 0
  fulfillment_order_id := "FO3"
  assigned_location := "888"
  lineitem_id := "LI3"
  sku := "SKU-2"
  product_name := "Coat"
  product_title := "Coat"
  quantity := 1
  vendor := "Acme"
  dicounted_total := 0
  original_total := 0
  currency := "SGD"
  discount_amount := 0
  tax_amount := 0
  tax_rate := 0
  tax_title := ""
  duty_amount := 5
  duty_tax := 0


/-- The enriched row of the plain order. -/
def scenRow1 : Row where
  order_name := "1"
  order_closed := "closed"
  country_code := "SG"
  shipping_country := some "SG"
  assigned_location := "051"
  fulfillment_status := "fulfilled"
  sku := "SKU-1"
  product_name := "Shirt"
  order_created_at := "2025-01-01T00:00:00Z"
  quantity := 1
  quantity_cancel := 0
  sales_kind := "order"
  currency := "SGD"
  original_total := 10
  adjusted_discounted_total := 10
  div := "S21"
  vendor := "Acme"
  total_shipping := 0
  total_duty := 0
  duty_tax := 0
  shipping_code := "STD"
  shipping_name := "Jo Tan"
  tax_title := ""
  total_tax := 0
  shipping_address1 := "1 Road"
  order_note := ""
  discount_amount := 0
  discount_type := "percentage"
  discount_code := none
  requires_shipping := "shipping"

/-- The enriched row of the split order's `"051"` leg. -/
def scenRow2 : Row where
  order_name := "2"
  order_closed := "closed"
  country_code := "SG"
  shipping_country := some "SG"
  assigned_location := "051"
  fulfillment_status := "fulfilled"
  sku := "SKU-2"
  product_name := "Coat"
  order_created_at := "2025-01-01T00:00:00Z"
  quantity := 1
  quantity_cancel := 0
  sales_kind := "order"
  currency := "SGD"
  original_total := 20
  adjusted_discounted_total := 20
  div := "S21"
  vendor := "Acme"
  total_shipping := 0
  total_duty := 0
  duty_tax := 0
  shipping_code := "STD"
  shipping_name := "Jo Tan"
  tax_title := ""
  total_tax := 0
  shipping_address1 := "1 Road"
  order_note := ""
  discount_amount := 0
  discount_type := "percentage"
  discount_code := none
  requires_shipping := "shipping"

/-- The enriched row of the split order's `"888"` leg. -/
def scenRow3 : Row where
  order_name := "2"
  order_closed := "closed"
  country_code := "SG"
  shipping_country := some "SG"
  assigned_location := "888"
  fulfillment_status := "fulfilled"
  sku := "SKU-2"
  product_name := "Coat"
  order_created_at := "2025-01-01T00:00:00Z"
  quantity := 1
  quantity_cancel := 0
  sales_kind := "order"
  currency := "SGD"
  original_total := 0
  adjusted_discounted_total := 0
  div := "S21"
  vendor := "Acme"
  total_shipping := 0
  total_duty := 5
  duty_tax := 0
  shipping_code := "STD"
  shipping_name := "Jo Tan"
  tax_title := ""
  total_tax := 0
  shipping_address1 := "1 Road"
  order_note := ""
  discount_amount := 0
  discount_type := "percentage"
  discount_code := none
  requires_shipping := "shipping"

/-- C2: no row of the aggregator's output (nor of the final emitted table)
sits at a virtual location `"888"` or `"999"`; and in the end-to-end
scenario — one plain `"051"` order plus one split order with legs at
`"051"` and `"888"` whose `"888"` leg carries `total_duty = 5.00` — the
emitted table has exactly 3 rows, exactly one of them the synthetic duty
row (with `adjusted_discounted_total = 5`), and none at `"888"`. -/
theorem virtual_rows_dropped :
    (∀ (rows : List Row) (r : Row), r ∈ duty_tax rows →
      r.assigned_location ≠ "888" ∧ r.assigned_location ≠ "999") ∧
    (∀ (fmtTs : String → String) (frows : List FlatRow) (er : EmitRow),
      er ∈ post_transform fmtTs frows →
      er.assigned_location ≠ "888" ∧ er.assigned_location ≠ "999") ∧
    (flattenE scenFiles = Except.ok [scenFr1, scenFr2, scenFr3] ∧
      (post_transform id [scenFr1, scenFr2, scenFr3]).length = 3 ∧
      ((post_transform id [scenFr1, scenFr2, scenFr3]).filter
        (fun er => er.sku == "90000000-DUTIES")).length = 1 ∧
      (∀ er ∈ post_transform id [scenFr1, scenFr2, scenFr3],
        er.assigned_location ≠ "888" ∧
        (er.sku == "90000000-DUTIES" → er.adjusted_discounted_total = 5))) := by
  have hpart1 : ∀ (rows : List Row) (r : Row), r ∈ duty_tax rows →
      r.assigned_location ≠ "888" ∧ r.assigned_location ≠ "999" := by
    intro rows r hr
    have hk := (List.mem_filter.mp hr).2
    constructor <;> intro he <;> simp [locKeep, he] at hk
  have hpart2 : ∀ (fmtTs : String → String) (frows : List FlatRow) (er : EmitRow),
      er ∈ post_transform fmtTs frows →
      er.assigned_location ≠ "888" ∧ er.assigned_location ≠ "999" := by
    intro fmt frows er her
    simp only [post_transform] at her
    obtain ⟨r, hrg, rfl⟩ := List.mem_map.mp her
    simp only [giftbox_transform] at hrg
    obtain ⟨r', hfil, rfl⟩ := List.mem_map.mp hrg
    have hdt : r' ∈ duty_tax (frows.map (enrichRow fmt)) := (List.mem_filter.mp hfil).1
    have hloc := hpart1 _ r' hdt
    by_cases hpre : (r'.assigned_location == "PRE ORDER") = true
    · rw [if_pos hpre]
      constructor <;> · simp [present, giftboxRewrite]
    · rw [if_neg hpre]
      exact hloc
  refine ⟨hpart1, hpart2, rfl, ?_, ?_, ?_⟩ <;>
  · have sname1 : pySplitLastDash "ORD-1" = "1" := by decide
    have sname2 : pySplitLastDash "ORD-2" = "2" := by decide
    have sloc : warehouse_code "051-MAIN" = "051" := by decide
    have sloc2 : warehouse_code "888" = "888" := by decide
    have slow : pyLower "FULFILLED" = "fulfilled" := by decide
    have r0 : round2 ((0:ℚ)) = 0 := by norm_num [round2]
    have r1 : round2 ((10:ℚ) - 0) = 10 := by norm_num [round2]
    have r2 : round2 ((20:ℚ) - 0) = 20 := by norm_num [round2]
    have r3 : round2 ((0:ℚ) - 0) = 0 := by norm_num [round2]
    have r4 : round2 ((0:ℚ) + 0) = 0 := by norm_num [round2]
    have r5 : round2 ((5:ℚ) + 0) = 5 := by norm_num [round2]
    have he1 : enrichRow id scenFr1 = scenRow1 := by
      simp only [enrichRow, scenFr1, sname1, sloc, slow, r0, r1, r4]
      simp [scenRow1]
    have he2 : enrichRow id scenFr2 = scenRow2 := by
      simp only [enrichRow, scenFr2, sname2, sloc, slow, r0, r2, r4]
      simp [scenRow2]
    have he3 : enrichRow id scenFr3 = scenRow3 := by
      simp only [enrichRow, scenFr3, sname2, sloc2, slow, r0, r3, r4, r5]
      simp [scenRow3]
    have hmap : ([scenFr1, scenFr2, scenFr3] : List FlatRow).map (enrichRow id) =
        [scenRow1, scenRow2, scenRow3] := by
      simp [he1, he2, he3]
    have hsg1 : synthForGroup "1" (groupRows [scenRow1, scenRow2, scenRow3] "1") = [] := by
      rw [show groupRows [scenRow1, scenRow2, scenRow3] "1" = [scenRow1] from by decide]
      simp [synthForGroup, show participates [scenRow1] = false from by decide]
    have hsg2 : synthForGroup "2" (groupRows [scenRow1, scenRow2, scenRow3] "2") =
        [mkDutyRow "2" scenRow2 5 0] := by
      rw [show groupRows [scenRow1, scenRow2, scenRow3] "2" = [scenRow2, scenRow3] from by decide]
      rw [synthForGroup_eq "2" [scenRow2, scenRow3] scenRow2 [scenRow3] (by decide) (by decide)]
      rw [show ((scenRow2 :: [scenRow3]).map Row.total_duty).sum = 5 from by
        simp [scenRow2, scenRow3]]
      rw [show ((scenRow2 :: [scenRow3]).map Row.duty_tax).sum = 0 from by
        simp [scenRow2, scenRow3]]
      rw [show pyMax scenRow2.total_shipping (([scenRow3] : List Row).map Row.total_shipping) = 0
        from by simp [pyMax, scenRow2, scenRow3]]
      norm_num
    have hkeys : sortedKeys [scenRow1, scenRow2, scenRow3] = ["1", "2"] := by decide
    have hsynth : syntheticRows [scenRow1, scenRow2, scenRow3] = [mkDutyRow "2" scenRow2 5 0] := by
      unfold syntheticRows
      rw [hkeys]
      simp [hsg1, hsg2]
    have hduty : duty_tax [scenRow1, scenRow2, scenRow3] =
        [scenRow1, scenRow2, mkDutyRow "2" scenRow2 5 0] := by
      unfold duty_tax
      rw [hsynth]
      decide
    have hgift : giftbox_transform [scenRow1, scenRow2, mkDutyRow "2" scenRow2 5 0] =
        [scenRow1, scenRow2, mkDutyRow "2" scenRow2 5 0] := by decide
    have hpost : post_transform id [scenFr1, scenFr2, scenFr3] =
        [present scenRow1, present scenRow2, present (mkDutyRow "2" scenRow2 5 0)] := by
      unfold post_transform
      rw [hmap, hduty, hgift]
      rfl
    first
    | (rw [hpost]; rfl)
    | (rw [hpost]; decide)

/-- Concrete instantiation of `virtual_rows_dropped`: the plain sample row
survives the aggregator and is at neither virtual location. -/
theorem virtual_rows_dropped_witness :
    sampleRow ∈ duty_tax [sampleRow] ∧
    sampleRow.assigned_location ≠ "888" ∧ sampleRow.assigned_location ≠ "999" :=
  ⟨by decide, virtual_rows_dropped.1 [sampleRow] sampleRow (by decide)⟩

/-! ### C9 — order names truncated after the last dash, before grouping -/

/-- C9: `post_transform` replaces every row's `order_name` with the substring
after the last `"-"` before aggregation (transform.py:186); a name with no
`"-"` passes through unchanged; the duty/shipping grouping key is the
truncated name, so two source rows whose names share the suffix after the
final `"-"` land in the same group; and every emitted row's `order_name` is
the truncation of some source row's name. -/
theorem order_name_truncation (fmtTs : String → String) (frows : List FlatRow) :
    (∀ fr ∈ frows, (enrichRow fmtTs fr).order_name = pySplitLastDash fr.order_name) ∧
    (∀ s : String, '-' ∉ s.data → pySplitLastDash s = s) ∧
    (∀ r1 ∈ frows, ∀ r2 ∈ frows,
      pySplitLastDash r1.order_name = pySplitLastDash r2.order_name →
      enrichRow fmtTs r1 ∈
        groupRows (frows.map (enrichRow fmtTs)) (pySplitLastDash r2.order_name) ∧
      enrichRow fmtTs r2 ∈
        groupRows (frows.map (enrichRow fmtTs)) (pySplitLastDash r2.order_name)) ∧
    (∀ er ∈ post_transform fmtTs frows,
      er.order_name ∈ frows.map (fun fr => pySplitLastDash fr.order_name)) := by
  refine ⟨fun fr _ => rfl, ?_, ?_, ?_⟩
  · intro s hs
    simp only [pySplitLastDash]
    rw [splitOnChar_of_not_mem hs]
    rfl
  · intro r1 h1 r2 h2 heq
    constructor
    · refine List.mem_filter.mpr ⟨List.mem_map_of_mem _ h1, ?_⟩
      show ((enrichRow fmtTs r1).order_name == pySplitLastDash r2.order_name) = true
      have hn : (enrichRow fmtTs r1).order_name = pySplitLastDash r1.order_name := rfl
      rw [hn, heq]
      simp
    · refine List.mem_filter.mpr ⟨List.mem_map_of_mem _ h2, ?_⟩
      show ((enrichRow fmtTs r2).order_name == pySplitLastDash r2.order_name) = true
      have hn : (enrichRow fmtTs r2).order_name = pySplitLastDash r2.order_name := rfl
      rw [hn]
      simp
  · intro er her
    simp only [post_transform] at her
    obtain ⟨r, hrg, rfl⟩ := List.mem_map.mp her
    simp only [giftbox_transform] at hrg
    obtain ⟨r', hfil, rfl⟩ := List.mem_map.mp hrg
    have hdt : r' ∈ duty_tax (frows.map (enrichRow fmtTs)) := (List.mem_filter.mp hfil).1
    have hname_pres : (present (if (r'.assigned_location == "PRE ORDER") = true then
        giftboxRewrite r' else r')).order_name = r'.order_name := by
      by_cases hpre : (r'.assigned_location == "PRE ORDER") = true
      · rw [if_pos hpre]
        rfl
      · rw [if_neg hpre]
        rfl
    rw [hname_pres]
    have hdt2 := (List.mem_filter.mp hdt).1
    rcases List.mem_append.mp hdt2 with hmem | hmem
    · obtain ⟨fr, hfr, rfl⟩ := List.mem_map.mp hmem
      exact List.mem_map.mpr ⟨fr, hfr, rfl⟩
    · simp only [syntheticRows] at hmem
      obtain ⟨k, hk, hksynth⟩ := List.mem_flatMap.mp hmem
      have hkname := mem_synthForGroup_order_name hksynth
      rw [hkname]
      have hk2 : k ∈ pdUnique ((frows.map (enrichRow fmtTs)).map Row.order_name) :=
        mem_sortStrings.mp hk
      have hk3 : k ∈ (frows.map (enrichRow fmtTs)).map Row.order_name := mem_pdUnique.mp hk2
      rw [List.map_map] at hk3
      obtain ⟨fr, hfr, hfrk⟩ := List.mem_map.mp hk3
      exact List.mem_map.mpr ⟨fr, hfr, hfrk⟩

/-- A source row named `"A-7"`. -/
def sfxFrA : FlatRow :=
  { scenFr1 with order_name := "A-7" }

/-- A source row named `"B-7"`: distinct name, same suffix after the final
dash. -/
def sfxFrB : FlatRow :=
  { scenFr2 with order_name := "B-7" }

/-- Concrete instantiation of `order_name_truncation`: `"A-7"` and `"B-7"`
are grouped together under the key `"7"`. -/
theorem order_name_truncation_witness :
    pySplitLastDash sfxFrA.order_name = pySplitLastDash sfxFrB.order_name ∧
    (enrichRow id sfxFrA ∈
      groupRows (([sfxFrA, sfxFrB] : List FlatRow).map (enrichRow id))
        (pySplitLastDash sfxFrB.order_name) ∧
     enrichRow id sfxFrB ∈
      groupRows (([sfxFrA, sfxFrB] : List FlatRow).map (enrichRow id))
        (pySplitLastDash sfxFrB.order_name)) :=
  ⟨by decide,
   (order_name_truncation id [sfxFrA, sfxFrB]).2.2.1 sfxFrA (List.mem_cons_self _ _) sfxFrB
     (by simp) (by decide)⟩

/-! ### C5 and C6 — flatten's per-line-item behavior and error behavior -/

/-- Well-formedness of a line item: every directly-indexed key present. -/
def wfLineItem (li : PLineItem) : Bool :=
  li.id.isSome && li.sku.isSome && li.name.isSome && li.title.isSome &&
  li.quantity.isSome && li.vendor.isSome && li.discountedTotalAmount.isSome &&
  li.originalTotalAmount.isSome && li.originalTotalCurrency.isSome &&
  li.discountAllocationAmounts.isSome && li.taxLines.isSome && li.duties.isSome

/-- Well-formedness of a line-item node: the `"lineItem"` key present with a
well-formed line item. -/
def wfNode (n : PLineItemNode) : Bool :=
  match n.lineItem with
  | some li => wfLineItem li
  | none => false

/-- Well-formedness of a fulfillment order. -/
def wfFulfillment (fo : PFulfillmentOrder) : Bool :=
  fo.id.isSome && fo.assignedLocationName.isSome &&
  (match fo.lineItemNodes with
   | some nodes => nodes.all wfNode
   | none => false)

/-- Well-formedness of the order-level fields read by `extractOrderInfo`
(the optional `note`, `discountCode`, `address2` excepted). -/
def wfOrderInfo (o : POrder) : Bool :=
  o.id.isSome && o.name.isSome && o.closed.isSome && o.createdAt.isSome &&
  o.updatedAt.isSome && o.requiresShipping.isSome &&
  o.displayFulfillmentStatus.isSome && o.displayAddressCountryCodeV2.isSome &&
  (match o.shippingAddress with
   | some sa => sa.name.isSome && sa.address1.isSome && sa.city.isSome && sa.country.isSome
   | none => false) &&
  (match o.shippingLine with
   | some sl => sl.title.isSome && sl.code.isSome && sl.discountedPriceAmount.isSome &&
       sl.originalPriceAmount.isSome && sl.discountedPriceCurrency.isSome &&
       sl.taxLineAmounts.isSome
   | none => false)

/-- Full well-formedness of an order document. -/
def wfOrder (o : POrder) : Bool :=
  wfOrderInfo o &&
  (match o.fulfillmentOrderNodes with
   | some fos => fos.all wfFulfillment
   | none => false)

/-- Number of line-item nodes of one fulfillment order. -/
def foNodeCount (fo : PFulfillmentOrder) : Nat :=
  match fo.lineItemNodes with
  | some nodes => nodes.length
  | none => 0

/-- Total number of line items of an order document. -/
def lineItemCount (o : POrder) : Nat :=
  match o.fulfillmentOrderNodes with
  | some fos => (fos.map foNodeCount).sum
  | none => 0

theorem Except_bind_ok {γ δ : Type} (x : γ) (f : γ → Except String δ) :
    Except.bind (Except.ok x) f = f x := rfl

theorem extractLineItemRow_ok (info : OrderInfo) (foId foLoc : String) (n : PLineItemNode)
    (h : wfNode n = true) :
    ∃ fr, extractLineItemRow info foId foLoc n = Except.ok fr ∧
      fr.order_note = info.order_note := by
  obtain ⟨oli⟩ := n
  cases oli with
  | none => simp [wfNode] at h
  | some li =>
    simp only [wfNode] at h
    obtain ⟨i1, i2, i3, i4, i5, i6, i7, i8, i9, i10, i11, i12⟩ := li
    simp only [wfLineItem, Bool.and_eq_true, and_assoc] at h
    obtain ⟨h1, h2, h3, h4, h5, h6, h7, h8, h9, h10, h11, h12⟩ := h
    obtain ⟨v1, rfl⟩ := Option.isSome_iff_exists.mp h1
    obtain ⟨v2, rfl⟩ := Option.isSome_iff_exists.mp h2
    obtain ⟨v3, rfl⟩ := Option.isSome_iff_exists.mp h3
    obtain ⟨v4, rfl⟩ := Option.isSome_iff_exists.mp h4
    obtain ⟨v5, rfl⟩ := Option.isSome_iff_exists.mp h5
    obtain ⟨v6, rfl⟩ := Option.isSome_iff_exists.mp h6
    obtain ⟨v7, rfl⟩ := Option.isSome_iff_exists.mp h7
    obtain ⟨v8, rfl⟩ := Option.isSome_iff_exists.mp h8
    obtain ⟨v9, rfl⟩ := Option.isSome_iff_exists.mp h9
    obtain ⟨v10, rfl⟩ := Option.isSome_iff_exists.mp h10
    obtain ⟨v11, rfl⟩ := Option.isSome_iff_exists.mp h11
    obtain ⟨v12, rfl⟩ := Option.isSome_iff_exists.mp h12
    exact ⟨_, rfl, rfl⟩

theorem extractOrderInfo_ok (o : POrder) (h : wfOrderInfo o = true) :
    ∃ info, extractOrderInfo o = Except.ok info ∧
      info.order_note = o.note.getD "" := by
  obtain ⟨o1, o2, onote, o3, o4, o5, ocode, o6, o7, o8, osa, osl, ofos⟩ := o
  simp only [wfOrderInfo, Bool.and_eq_true, and_assoc] at h
  obtain ⟨h1, h2, h3, h4, h5, h6, h7, h8, hsa, hsl⟩ := h
  obtain ⟨v1, rfl⟩ := Option.isSome_iff_exists.mp h1
  obtain ⟨v2, rfl⟩ := Option.isSome_iff_exists.mp h2
  obtain ⟨v3, rfl⟩ := Option.isSome_iff_exists.mp h3
  obtain ⟨v4, rfl⟩ := Option.isSome_iff_exists.mp h4
  obtain ⟨v5, rfl⟩ := Option.isSome_iff_exists.mp h5
  obtain ⟨v6, rfl⟩ := Option.isSome_iff_exists.mp h6
  obtain ⟨v7, rfl⟩ := Option.isSome_iff_exists.mp h7
  obtain ⟨v8, rfl⟩ := Option.isSome_iff_exists.mp h8
  cases osa with
  | none => cases hsa
  | some sa =>
    obtain ⟨s1, s2, saddr2, s3, s4⟩ := sa
    simp only [Bool.and_eq_true, and_assoc] at hsa
    obtain ⟨hs1, hs2, hs3, hs4⟩ := hsa
    obtain ⟨w1, rfl⟩ := Option.isSome_iff_exists.mp hs1
    obtain ⟨w2, rfl⟩ := Option.isSome_iff_exists.mp hs2
    obtain ⟨w3, rfl⟩ := Option.isSome_iff_exists.mp hs3
    obtain ⟨w4, rfl⟩ := Option.isSome_iff_exists.mp hs4
    cases osl with
    | none => cases hsl
    | some sl =>
      obtain ⟨l1, l2, l3, l4, l5, l6⟩ := sl
      simp only [Bool.and_eq_true, and_assoc] at hsl
      obtain ⟨hl1, hl2, hl3, hl4, hl5, hl6⟩ := hsl
      obtain ⟨u1, rfl⟩ := Option.isSome_iff_exists.mp hl1
      obtain ⟨u2, rfl⟩ := Option.isSome_iff_exists.mp hl2
      obtain ⟨u3, rfl⟩ := Option.isSome_iff_exists.mp hl3
      obtain ⟨u4, rfl⟩ := Option.isSome_iff_exists.mp hl4
      obtain ⟨u5, rfl⟩ := Option.isSome_iff_exists.mp hl5
      obtain ⟨u6, rfl⟩ := Option.isSome_iff_exists.mp hl6
      exact ⟨_, rfl, rfl⟩

theorem exList_ok_length {α β : Type} (f : α → Except String β) (P : β → Prop) :
    ∀ (l : List α), (∀ a ∈ l, ∃ b, f a = Except.ok b ∧ P b) →
    ∃ bs, exList f l = Except.ok bs ∧ bs.length = l.length ∧ ∀ b ∈ bs, P b := by
  intro l
  induction l with
  | nil => exact fun _ => ⟨[], rfl, rfl, by simp⟩
  | cons a as ih =>
    intro h
    obtain ⟨b, hb, hPb⟩ := h a (List.mem_cons_self _ _)
    obtain ⟨bs, hbs, hlen, hP⟩ := ih (fun x hx => h x (List.mem_cons_of_mem _ hx))
    refine ⟨b :: bs, ?_, by simp [hlen], ?_⟩
    · simp only [exList]
      rw [hb, hbs]
      rfl
    · intro c hc
      rcases List.mem_cons.mp hc with rfl | hc
      · exact hPb
      · exact hP c hc

theorem flattenFulfillment_ok (info : OrderInfo) (fo : PFulfillmentOrder)
    (h : wfFulfillment fo = true) :
    ∃ rs, flattenFulfillment info fo = Except.ok rs ∧ rs.length = foNodeCount fo ∧
      ∀ r ∈ rs, r.order_note = info.order_note := by
  obtain ⟨fid, floc, fnodes⟩ := fo
  simp only [wfFulfillment, Bool.and_eq_true, and_assoc] at h
  obtain ⟨hf1, hf2, hf3⟩ := h
  obtain ⟨a, rfl⟩ := Option.isSome_iff_exists.mp hf1
  obtain ⟨b, rfl⟩ := Option.isSome_iff_exists.mp hf2
  cases fnodes with
  | none => cases hf3
  | some nodes =>
    have hall : ∀ n ∈ nodes, wfNode n = true := by
      intro n hn
      exact List.all_eq_true.mp hf3 n hn
    obtain ⟨rs, hrs, hlen, hP⟩ := exList_ok_length (extractLineItemRow info a b)
      (fun fr => fr.order_note = info.order_note) nodes
      (fun n hn => extractLineItemRow_ok info a b n (hall n hn))
    exact ⟨rs, hrs, hlen, hP⟩

theorem exList_fulfillments_ok (info : OrderInfo) :
    ∀ (fos : List PFulfillmentOrder), fos.all wfFulfillment = true →
    ∃ rls, exList (flattenFulfillment info) fos = Except.ok rls ∧
      rls.flatten.length = (fos.map foNodeCount).sum ∧
      ∀ r ∈ rls.flatten, r.order_note = info.order_note := by
  intro fos
  induction fos with
  | nil => exact fun _ => ⟨[], rfl, rfl, by simp⟩
  | cons fo fos ih =>
    intro h
    rw [List.all_cons, Bool.and_eq_true] at h
    obtain ⟨rs, hrs, hlen, hPr⟩ := flattenFulfillment_ok info fo h.1
    obtain ⟨rls, hrls, hflen, hPl⟩ := ih h.2
    refine ⟨rs :: rls, ?_, ?_, ?_⟩
    · simp only [exList]
      rw [hrs, hrls]
      rfl
    · simp [hlen, hflen]
    · intro r hr
      rw [List.flatten_cons] at hr
      rcases List.mem_append.mp hr with hr | hr
      · exact hPr r hr
      · exact hPl r hr

/-- Shared core: on a well-formed document `flatten` succeeds, emits exactly
one row per line item (no SKU/quantity filter anywhere), and every emitted
row carries `order_note = note.getD ""`. -/
theorem flattenFile_wf (o : POrder) (h : wfOrder o = true) :
    ∃ rs, flattenFile (FileEntry.file (some o)) = Except.ok rs ∧
      rs.length = lineItemCount o ∧ ∀ r ∈ rs, r.order_note = o.note.getD "" := by
  rw [wfOrder, Bool.and_eq_true] at h
  obtain ⟨hinfo, hfos⟩ := h
  obtain ⟨info, hi, hnote⟩ := extractOrderInfo_ok o hinfo
  cases hfo : o.fulfillmentOrderNodes with
  | none =>
    rw [hfo] at hfos
    cases hfos
  | some fos =>
    rw [hfo] at hfos
    obtain ⟨rls, hrls, hflen, hPl⟩ := exList_fulfillments_ok info fos hfos
    have hred : flattenFile (FileEntry.file (some o)) =
        Except.bind (extractOrderInfo o) (fun info =>
          Except.bind (pyGet o.fulfillmentOrderNodes "fulfillmentOrders") (fun fos =>
            Except.bind (exList (flattenFulfillment info) fos) (fun rowLists =>
              Except.ok rowLists.flatten))) := rfl
    have hpg : pyGet (some fos) "fulfillmentOrders" = Except.ok fos := rfl
    refine ⟨rls.flatten, ?_, ?_, ?_⟩
    · rw [hred, hi, Except_bind_ok, hfo, hpg, Except_bind_ok, hrls, Except_bind_ok]
    · rw [hflen]
      simp only [lineItemCount, hfo]
    · intro r hr
      rw [hnote] at hPl
      exact hPl r hr

/-- A degenerate line item: empty SKU, zero quantity. -/
def degenLineItem : PLineItem where
  id := some "LI0"
  sku := some ""
  name := some ""
  title := some ""
  quantity := some 0
  vendor := some ""
  discountedTotalAmount := some 0
  originalTotalAmount := some 0
  originalTotalCurrency := some "SGD"
  discountAllocationAmounts := some []
  taxLines := some []
  duties := some []

def degenFulfillment : PFulfillmentOrder where
  id := some "FO0"
  assignedLocationName := some "051-MAIN"
  lineItemNodes := some [{ lineItem := some degenLineItem }]

/-- The plain order with its only line item replaced by the degenerate one. -/
def degenOrder : POrder :=
  { plainOrder with fulfillmentOrderNodes := some [degenFulfillment] }

/-- The row `flatten` emits for the degenerate line item. -/
def degenRow : FlatRow :=
  { scenFr1 with
    fulfillment_order_id := "FO0"
    lineitem_id := "LI0"
    sku := ""
    product_name := ""
    product_title := ""
    quantity := 0
    vendor := ""
    dicounted_total := 0
    original_total := 0 }

/-- Counterexample to C5 as stated: a line item with empty SKU (no alternate
SKU exists in this code) and zero quantity still produces a row — `flatten`
applies no truthiness filter. -/
theorem flatten_truthiness_cex :
    flattenE [FileEntry.file (some degenOrder)] = Except.ok [degenRow] ∧
    degenRow.sku = "" ∧ degenRow.quantity = 0 :=
  ⟨rfl, rfl, rfl⟩

/-- C5 (amended): `flatten` emits exactly one row per line item of every
fulfillment order of a well-formed document — unconditionally, with no
SKU/alternate-SKU/quantity truthiness filter. -/
theorem flatten_row_per_lineitem (o : POrder) (h : wfOrder o = true) :
    ∃ rs, flattenFile (FileEntry.file (some o)) = Except.ok rs ∧
      rs.length = lineItemCount o := by
  obtain ⟨rs, hok, hlen, -⟩ := flattenFile_wf o h
  exact ⟨rs, hok, hlen⟩

/-- Concrete instantiation of `flatten_row_per_lineitem` at the degenerate
document: one line item, one row. -/
theorem flatten_row_per_lineitem_witness :
    wfOrder degenOrder = true ∧
    ∃ rs, flattenFile (FileEntry.file (some degenOrder)) = Except.ok rs ∧
      rs.length = lineItemCount degenOrder :=
  ⟨by decide, flatten_row_per_lineitem degenOrder (by decide)⟩

/-- The plain order with the required `closed` key missing. -/
def orderMissingClosed : POrder :=
  { plainOrder with closed := none }

/-- Counterexample to C6 as stated: a structurally malformed document (the
`["data"]["order"]` chain fails) raises and aborts the whole `flatten` run —
the well-formed second file contributes no rows at all — and an absent
required nested field (`closed`) likewise raises instead of defaulting. -/
theorem flatten_abort_cex :
    flattenE [FileEntry.file none, FileEntry.file (some plainOrder)] =
      Except.error "KeyError: order" ∧
    flattenE [FileEntry.file (some plainOrder)] = Except.ok [scenFr1] ∧
    flattenFile (FileEntry.file (some orderMissingClosed)) =
      Except.error "KeyError: closed" :=
  ⟨rfl, rfl, rfl⟩

/-- C6 (amended): a missing top-level order object is a `KeyError`; any
error in any listed file propagates and makes the whole `flatten` run fail
(no rows from any file); only a file that vanished from disk is skipped
(dropping just its rows); and of the order-level fields only the optional
ones default — in particular an absent `note` becomes `""` on every emitted
row of a document whose required fields are present. -/
theorem flatten_error_propagation :
    (flattenFile (FileEntry.file none) = Except.error "KeyError: order") ∧
    (∀ (files : List FileEntry) (f : FileEntry) (msg : String),
      f ∈ files → flattenFile f = Except.error msg →
      ∃ msg2, flattenE files = Except.error msg2) ∧
    (∀ files : List FileEntry, flattenE (FileEntry.missing :: files) = flattenE files) ∧
    (∀ o : POrder, wfOrder o = true → o.note = none →
      ∃ rs, flattenFile (FileEntry.file (some o)) = Except.ok rs ∧
        ∀ r ∈ rs, r.order_note = "") := by
  refine ⟨rfl, ?_, ?_, ?_⟩
  · intro files
    induction files with
    | nil =>
      intro f msg hf
      cases hf
    | cons g gs ih =>
      intro f msg hf herr
      rcases List.mem_cons.mp hf with rfl | hmem
      · refine ⟨msg, ?_⟩
        simp only [flattenE, exList]
        rw [herr]
        rfl
      · cases hg : flattenFile g with
        | error m2 =>
          refine ⟨m2, ?_⟩
          simp only [flattenE, exList]
          rw [hg]
          rfl
        | ok rs =>
          obtain ⟨m2, hm2⟩ := ih f msg hmem herr
          cases hex : exList flattenFile gs with
          | ok bs =>
            exfalso
            have hok : flattenE gs = Except.ok bs.flatten := by
              simp only [flattenE]
              rw [hex]
              rfl
            rw [hok] at hm2
            cases hm2
          | error m3 =>
            refine ⟨m3, ?_⟩
            simp only [flattenE, exList]
            rw [hg, hex]
            rfl
  · intro files
    cases hex : exList flattenFile files with
    | ok bs =>
      simp only [flattenE, exList, flattenFile]
      rw [hex]
      show Except.ok (([] : List FlatRow) :: bs).flatten = Except.ok bs.flatten
      rw [List.flatten_cons, List.nil_append]
    | error m =>
      simp only [flattenE, exList, flattenFile]
      rw [hex]
      rfl
  · intro o h hnote
    obtain ⟨rs, hok, -, hnotes⟩ := flattenFile_wf o h
    refine ⟨rs, hok, ?_⟩
    intro r hr
    have := hnotes r hr
    rwa [hnote] at this

/-- Concrete instantiation of `flatten_error_propagation`: the malformed
envelope aborts a run that also contains the well-formed plain order. -/
theorem flatten_error_propagation_witness :
    FileEntry.file none ∈ [FileEntry.file none, FileEntry.file (some plainOrder)] ∧
    flattenFile (FileEntry.file none) = Except.error "KeyError: order" ∧
    ∃ msg2, flattenE [FileEntry.file none, FileEntry.file (some plainOrder)] =
      Except.error msg2 :=
  ⟨List.mem_cons_self _ _, rfl,
   flatten_error_propagation.2.1 [FileEntry.file none, FileEntry.file (some plainOrder)]
     (FileEntry.file none) "KeyError: order" (List.mem_cons_self _ _) rfl⟩
